import Mathlib

/-!
Shallow embedding of the streaming event reader of `src/mammut/streaming.py`
(`Stream._dispatch_event`, `Stream._run`, the listener classes) and of the
REST parameter builder `Mammut._build_parameters` of `src/mammut/api.py`.

The read loop of `Stream._run` consumes decoded text lines: a blank line
passes the accumulated event dict to `_dispatch_event` and then resets the
accumulator; a line starting with a colon is a heartbeat and is only printed;
any other line is split by `line.split(': ', 1)` on the first occurrence of
the two-character separator colon-space and merged into the accumulator with
`event[key] += value` when the key is present, `event[key] = value` otherwise.
`Stream._dispatch_event` reads `event['event']`, builds the method name
`"on_" + that value`, reads `event['data']`, and calls that method on the
listener with the raw `data` string via `operator.methodcaller`.

Python dicts are modelled as insertion-ordered association lists; the raised
exceptions (KeyError from a missing dict key, AttributeError from
`methodcaller` resolving a missing method, ValueError from unpacking a
one-element `split` result into `key, value`) are modelled explicitly.
-/

/-- The exceptions the streaming code can raise: `KeyError` from `event[k]`
on a missing key, `AttributeError` from `operator.methodcaller` when the
listener has no method of the composed name, `ValueError` from unpacking
`line.split(': ', 1)` into `key, value` when the separator is absent. -/
inductive PyError where
  | keyError : String → PyError
  | attributeError : String → PyError
  | valueError : PyError
deriving DecidableEq

/-- Python dict item lookup `d[k]` on an insertion-ordered association list;
`none` means the lookup would raise KeyError at the call site. Also serves
as the membership test `k in d`. -/
def getItem : List (String × String) → String → Option String
  | [], _ => none
  | (k', v) :: rest, k => if k' = k then some v else getItem rest k

/-- The field-merge step of `Stream._run` (streaming.py lines 48-52):
`if key in event: event[key] += value else: event[key] = value`.
An existing key keeps its position and its value gets the new value
appended with no separator; a new key is inserted. -/
def updateField : List (String × String) → String → String → List (String × String)
  | [], k, v => [(k, v)]
  | (k', v') :: rest, k, v =>
      if k' = k then (k', v' ++ v) :: rest
      else (k', v') :: updateField rest k v

/-- Splitting a character list at the first occurrence of the two-character
separator colon-space, as `line.split(': ', 1)` does: `none` when the
separator does not occur (the Python split then yields a one-element list
and the `key, value = ...` unpacking raises ValueError). -/
def splitSep : List Char → Option (List Char × List Char)
  | [] => none
  | ':' :: ' ' :: rest => some ([], rest)
  | c :: rest => (splitSep rest).map (fun p => (c :: p.1, p.2))

/-- `line.split(': ', 1)` returning the key and value when the separator
occurs in the line. -/
def splitLine (line : String) : Option (String × String) :=
  (splitSep line.data).map (fun p => (String.mk p.1, String.mk p.2))

/-- `line.startswith(':')` of streaming.py line 44. -/
def isHeartbeat (line : String) : Bool :=
  match line.data with
  | ':' :: _ => true
  | _ => false

/-- The `on_<event>` methods supplied by `AbstractStreamListner` and its
reference implementation `PrintStreamListner` (streaming.py lines 72-94):
exactly `on_update`, `on_notification` and `on_delete`. A listener is
modelled by the list of method names it supplies. -/
def printStreamListnerMethods : List String :=
  ["on_update", "on_notification", "on_delete"]

/-- `Stream._dispatch_event` (streaming.py lines 17-20):
reads `event['event']` (KeyError when absent), composes the method name
`"on_" + event['event']`, reads `event['data']` (KeyError when absent,
raised while building the `methodcaller`, before any attribute lookup on
the listener), then calls the method of that name on the listener with the
raw `data` string (AttributeError when the listener has no such method).
`.ok (m, d)` records the single handler call: method `m` invoked with the
undecoded string `d`. -/
def dispatch_event (listenerMethods : List String)
    (event : List (String × String)) : Except PyError (String × String) :=
  match getItem event "event" with
  | none => .error (.keyError "event")
  | some ev =>
      match getItem event "data" with
      | none => .error (.keyError "data")
      | some d =>
          if ("on_" ++ ev) ∈ listenerMethods then .ok ("on_" ++ ev, d)
          else .error (.attributeError ("on_" ++ ev))

/-- Observable state of one `Stream._run` read loop: the in-progress event
accumulator, the events passed to `_dispatch_event` (in order), the handler
calls actually performed (method name and raw argument, in order), and the
heartbeat lines passed to `_handle_heartbeat`. -/
structure RunState where
  event : List (String × String)
  emitted : List (List (String × String))
  calls : List (String × String)
  heartbeats : List String
deriving DecidableEq

/-- The initial loop state: `event = ` empty dict, nothing dispatched yet. -/
def initState : RunState := ⟨[], [], [], []⟩

/-- One iteration of the `for line in resp.iter_lines()` loop of
`Stream._run` (streaming.py lines 33-52) on an already decoded line.
A blank line passes the accumulator to `_dispatch_event` (recorded in
`emitted`); when dispatch succeeds the handler call is recorded and the
accumulator is reset to the empty dict, when it raises the exception
propagates and the loop dies with the state as it stands. A line starting
with a colon is only handed to `_handle_heartbeat`. Any other line is
unpacked from `line.split(': ', 1)` — ValueError when the separator is
absent — and merged into the accumulator. -/
def step (listenerMethods : List String) (s : RunState) (line : String) :
    Except (PyError × RunState) RunState :=
  if line = "" then
    let s1 : RunState := { s with emitted := s.emitted ++ [s.event] }
    match dispatch_event listenerMethods s.event with
    | .ok c => .ok { s1 with event := [], calls := s1.calls ++ [c] }
    | .error e => .error (e, s1)
  else if isHeartbeat line then
    .ok { s with heartbeats := s.heartbeats ++ [line] }
  else
    match splitLine line with
    | none => .error (.valueError, s)
    | some kv => .ok { s with event := updateField s.event kv.1 kv.2 }

/-- Runs the `Stream._run` loop from a given state over the remaining lines;
an uncaught exception stops the loop and is returned with the state at the
moment it was raised. -/
def runFrom (listenerMethods : List String) (s : RunState) :
    List String → RunState × Option PyError
  | [] => (s, none)
  | line :: rest =>
      match step listenerMethods s line with
      | .ok s' => runFrom listenerMethods s' rest
      | .error es => (es.2, some es.1)

/-- The whole `Stream._run` loop over the decoded lines of the response
body, from the empty accumulator. -/
def runLines (listenerMethods : List String) (lines : List String) :
    RunState × Option PyError :=
  runFrom listenerMethods initState lines

/-- A well-formed field line: non-empty, not a heartbeat, and containing
the colon-space separator. -/
def wfField (line : String) : Bool :=
  !(line = "") && !(isHeartbeat line) && (splitLine line).isSome

/-- The reduction of a list of field lines into a field map, in arrival
order: the first occurrence of a key inserts its value, each later
occurrence appends to the stored value. Lines without the separator are
skipped (unreachable for well-formed field lines). -/
def reduceFields (acc : List (String × String)) :
    List String → List (String × String)
  | [] => acc
  | l :: rest =>
      match splitLine l with
      | some kv => reduceFields (updateField acc kv.1 kv.2) rest
      | none => reduceFields acc rest

/-- The Python values relevant to `Mammut._build_parameters`: `None`,
booleans, integers and strings, with Python truthiness. -/
inductive PyVal where
  | pyNone : PyVal
  | pyBool : Bool → PyVal
  | pyInt : Int → PyVal
  | pyStr : String → PyVal
deriving DecidableEq

/-- Python truthiness of the modelled values: `None`, `False`, `0` and the
empty string are falsy. -/
def truthy : PyVal → Bool
  | .pyNone => false
  | .pyBool b => b
  | .pyInt n => n != 0
  | .pyStr s => s != ""

/-- `Mammut._build_parameters` (api.py lines 126-137):
with `ignores` defaulting to `('self',)` when `None` is passed, returns
the dict comprehension keeping exactly the items whose key is not ignored
and whose value is truthy. -/
def build_parameters (params : List (String × PyVal))
    (ignores : Option (List String)) : List (String × PyVal) :=
  let ig := match ignores with
    | Option.none => ["self"]
    | Option.some l => l
  params.filter (fun p => !(ig.contains p.1) && truthy p.2)

/-! Helper lemmas about the step function and the field map. -/

theorem dispatch_missing_event (m : List String) (event : List (String × String))
    (h : getItem event "event" = none) :
    dispatch_event m event = .error (.keyError "event") := by
  simp [dispatch_event, h]

theorem dispatch_missing_data (m : List String) (event : List (String × String))
    (ev : String) (h1 : getItem event "event" = some ev)
    (h2 : getItem event "data" = none) :
    dispatch_event m event = .error (.keyError "data") := by
  simp [dispatch_event, h1, h2]

theorem step_heartbeat_eq (m : List String) (s : RunState) (line : String)
    (h0 : line ≠ "") (h1 : isHeartbeat line = true) :
    step m s line = .ok { s with heartbeats := s.heartbeats ++ [line] } := by
  simp [step, h0, h1]

theorem step_field_eq (m : List String) (s : RunState) (line : String)
    (kv : String × String) (h0 : line ≠ "") (h1 : isHeartbeat line = false)
    (h2 : splitLine line = some kv) :
    step m s line = .ok { s with event := updateField s.event kv.1 kv.2 } := by
  simp [step, h0, h1, h2]

theorem step_malformed_eq (m : List String) (s : RunState) (line : String)
    (h0 : line ≠ "") (h1 : isHeartbeat line = false)
    (h2 : splitLine line = none) :
    step m s line = .error (.valueError, s) := by
  simp [step, h0, h1, h2]

theorem step_blank_keyerror (m : List String) (s : RunState)
    (h : getItem s.event "event" = none) :
    step m s "" = .error (.keyError "event",
      { s with emitted := s.emitted ++ [s.event] }) := by
  simp [step, dispatch_missing_event m s.event h]

theorem getItem_updateField_same (k v : String) :
    ∀ (d : List (String × String)) (old : String), getItem d k = some old →
      getItem (updateField d k v) k = some (old ++ v)
  | [], old, h => by simp [getItem] at h
  | (k', v') :: rest, old, h => by
      by_cases hk : k' = k
      · subst hk
        simp [getItem] at h
        simp [updateField, getItem, h]
      · simp [getItem, hk] at h
        simp [updateField, getItem, hk]
        exact getItem_updateField_same k v rest old h

theorem runFrom_append_ok (m : List String) :
    ∀ (xs : List String) (s s' : RunState) (ys : List String),
      runFrom m s xs = (s', none) →
      runFrom m s (xs ++ ys) = runFrom m s' ys := by
  intro xs
  induction xs with
  | nil =>
      intro s s' ys h
      simp [runFrom] at h
      rw [h, List.nil_append]
  | cons l rest ih =>
      intro s s' ys h
      simp only [List.cons_append, runFrom] at h ⊢
      cases hst : step m s l with
      | ok s1 =>
          rw [hst] at h
          simp only at h
          simp only
          exact ih s1 s' ys h
      | error es =>
          rw [hst] at h
          simp at h

theorem runFrom_append_err (m : List String) :
    ∀ (xs : List String) (s s' : RunState) (e : PyError) (ys : List String),
      runFrom m s xs = (s', some e) →
      runFrom m s (xs ++ ys) = (s', some e) := by
  intro xs
  induction xs with
  | nil =>
      intro s s' e ys h
      simp [runFrom] at h
  | cons l rest ih =>
      intro s s' e ys h
      simp only [List.cons_append, runFrom] at h ⊢
      cases hst : step m s l with
      | ok s1 =>
          rw [hst] at h
          simp only at h
          simp only
          exact ih s1 s' e ys h
      | error es =>
          rw [hst] at h
          simp only at h ⊢
          exact h

theorem runFrom_no_blank (m : List String) :
    ∀ (suffix : List String), (∀ l ∈ suffix, l ≠ "") → ∀ (s : RunState),
      ((runFrom m s suffix).1).emitted = s.emitted ∧
      ((runFrom m s suffix).1).calls = s.calls := by
  intro suffix
  induction suffix with
  | nil =>
      intro _ s
      simp [runFrom]
  | cons l rest ih =>
      intro h s
      have hl : l ≠ "" := h l (List.mem_cons_self l rest)
      have hrest : ∀ x ∈ rest, x ≠ "" := fun x hx => h x (List.mem_cons_of_mem l hx)
      by_cases hb : isHeartbeat l
      · simp only [runFrom, step_heartbeat_eq m s l hl hb]
        simpa using ih hrest { s with heartbeats := s.heartbeats ++ [l] }
      · have hb' : isHeartbeat l = false := by simpa using hb
        cases hsp : splitLine l with
        | none =>
            simp [runFrom, step_malformed_eq m s l hl hb' hsp]
        | some kv =>
            simp only [runFrom, step_field_eq m s l kv hl hb' hsp]
            simpa using ih hrest { s with event := updateField s.event kv.1 kv.2 }

theorem runFrom_fields (m : List String) :
    ∀ (fl : List String), (∀ l ∈ fl, wfField l = true) →
      ∀ (s : RunState) (rest : List String),
        runFrom m s (fl ++ rest) =
          runFrom m { s with event := reduceFields s.event fl } rest := by
  intro fl
  induction fl with
  | nil =>
      intro _ s rest
      simp [reduceFields]
  | cons l tl ih =>
      intro h s rest
      have hl := h l (List.mem_cons_self l tl)
      have htl : ∀ x ∈ tl, wfField x = true := fun x hx => h x (List.mem_cons_of_mem l hx)
      simp only [wfField, Bool.and_eq_true, Bool.not_eq_true', decide_eq_false_iff_not,
        Option.isSome_iff_exists] at hl
      obtain ⟨⟨h0, h1⟩, kv, hkv⟩ := hl
      simp only [List.cons_append, runFrom, step_field_eq m s l kv h0 h1 hkv]
      have h2 : reduceFields s.event (l :: tl) =
          reduceFields (updateField s.event kv.1 kv.2) tl := by
        simp [reduceFields, hkv]
      rw [h2]
      exact ih htl { s with event := updateField s.event kv.1 kv.2 } rest

/-! Claim theorems. -/

/-- C1 (counterexample): dispatching the completed event
`[("event", "mystery"), ("data", "\x7b\x7d")]` against the reference listener,
which supplies only `on_update`, `on_notification` and `on_delete`, is not a
silent skip: `operator.methodcaller` resolves the missing method
`on_mystery` on the listener and raises AttributeError, refuting the claim
that the dispatch raises no error. -/
theorem mystery_event_raises_attribute_error :
    dispatch_event printStreamListnerMethods
        [("event", "mystery"), ("data", "\x7b\x7d")]
      = Except.error (PyError.attributeError "on_mystery") := by rfl

/-- C1 (amended): for every completed event carrying `event` and `data`
fields whose event name has no matching `on_<event>` method on the listener,
dispatch performs zero handler calls, but it is not silent: the method call
on the listener raises AttributeError naming the missing handler, which
propagates out of the dispatch. -/
theorem unknown_event_attribute_error (m : List String)
    (event : List (String × String)) (ev d : String)
    (h1 : getItem event "event" = some ev)
    (h2 : getItem event "data" = some d)
    (h3 : ("on_" ++ ev) ∉ m) :
    dispatch_event m event = Except.error (PyError.attributeError ("on_" ++ ev)) := by
  simp [dispatch_event, h1, h2, h3]

/-- C1 (witness): the amended claim at the concrete mystery event and the
reference listener. -/
theorem unknown_event_attribute_error_witness :
    dispatch_event printStreamListnerMethods
        [("event", "mystery"), ("data", "\x7b\x7d")]
      = Except.error (PyError.attributeError ("on_" ++ "mystery")) :=
  unknown_event_attribute_error printStreamListnerMethods
    [("event", "mystery"), ("data", "\x7b\x7d")] "mystery" "\x7b\x7d"
    (by decide) (by decide) (by decide)

/-- C2 (counterexample): a blank line read at stream start, with the
accumulator empty, is not a no-op: the empty record is passed to
`_dispatch_event` (it appears in `emitted`) and `event['event']` raises
KeyError, which propagates and kills the read loop, refuting the claim that
no dispatch occurs and the line only resets the accumulator. -/
theorem blank_line_at_start_raises_keyerror :
    runLines printStreamListnerMethods [""]
      = (⟨[], [[]], [], []⟩, some (PyError.keyError "event")) := by decide

/-- C2 (amended): for every loop state whose accumulator lacks the `event`
key, a blank line does invoke `_dispatch_event` on that record; no listener
handler is called (the `calls` list is unchanged), but the dispatch raises
KeyError "event", which propagates and terminates the loop without resetting
the accumulator. -/
theorem missing_event_key_dispatch_raises (m : List String) (s : RunState)
    (h : getItem s.event "event" = none) :
    step m s "" = Except.error (PyError.keyError "event",
      { s with emitted := s.emitted ++ [s.event] }) :=
  step_blank_keyerror m s h

/-- C2 (witness): the amended claim at the initial (empty) loop state. -/
theorem missing_event_key_dispatch_raises_witness :
    step printStreamListnerMethods initState ""
      = Except.error (PyError.keyError "event", ⟨[], [[]], [], []⟩) :=
  missing_event_key_dispatch_raises printStreamListnerMethods initState (by decide)

/-- C3 (counterexample): dispatching the completed event
`[("event", "update"), ("data", "\x7b\"id\": 1\x7d")]` to the reference
listener makes exactly one call to `on_update`, but the argument is the
verbatim `data` string: `_dispatch_event` performs no JSON decoding
(`operator.methodcaller(method_name, event['data'])` passes the raw value),
refuting the claim that the handler receives the decoded value and not the
raw string. -/
theorem update_event_handler_gets_raw_string :
    dispatch_event printStreamListnerMethods
        [("event", "update"), ("data", "\x7b\"id\": 1\x7d")]
      = Except.ok ("on_update", "\x7b\"id\": 1\x7d") := by rfl

/-- C3 (amended): for every completed event carrying `event` and `data`
fields whose event name has a matching `on_<event>` method on the listener,
dispatch makes exactly one call to that handler, with the raw string value
of the `data` field, undecoded. -/
theorem known_event_single_call_raw_data (m : List String)
    (event : List (String × String)) (ev d : String)
    (h1 : getItem event "event" = some ev)
    (h2 : getItem event "data" = some d)
    (h3 : ("on_" ++ ev) ∈ m) :
    dispatch_event m event = Except.ok ("on_" ++ ev, d) := by
  simp [dispatch_event, h1, h2, h3]

/-- C3 (witness): the amended claim at the concrete update event. -/
theorem known_event_single_call_raw_data_witness :
    dispatch_event printStreamListnerMethods
        [("event", "update"), ("data", "\x7b\"id\": 1\x7d")]
      = Except.ok ("on_" ++ "update", "\x7b\"id\": 1\x7d") :=
  known_event_single_call_raw_data printStreamListnerMethods
    [("event", "update"), ("data", "\x7b\"id\": 1\x7d")] "update"
    "\x7b\"id\": 1\x7d" (by decide) (by decide) (by decide)

/-- C4 (counterexample): the malformed line `garbage-no-colon` between two
valid field lines is not ignored: `line.split(': ', 1)` yields a one-element
list, the `key, value` unpacking raises ValueError, the loop terminates, and
the following valid field line `b: 2` is never captured — the final
accumulator holds only the field read before the malformed line. This
refutes the claim that such a line raises no error and leaves the
surrounding fields intact. -/
theorem garbage_line_raises_valueerror :
    runLines printStreamListnerMethods ["a: 1", "garbage-no-colon", "b: 2"]
      = (⟨[("a", "1")], [], [], []⟩, some PyError.valueError) := by decide

/-- C4 (amended): for every non-empty line that does not start with a colon
and contains no colon-space separator, processing the line raises ValueError
with the accumulator unchanged at that point; the error propagates and
terminates the read loop, so later lines are never processed. -/
theorem malformed_line_valueerror (m : List String) (s : RunState)
    (line : String) (h0 : line ≠ "") (h1 : isHeartbeat line = false)
    (h2 : splitLine line = none) :
    step m s line = Except.error (PyError.valueError, s) :=
  step_malformed_eq m s line h0 h1 h2

/-- C4 (witness): the amended claim at the line `garbage-no-colon` from a
state already holding one field. -/
theorem malformed_line_valueerror_witness :
    step printStreamListnerMethods ⟨[("a", "1")], [], [], []⟩ "garbage-no-colon"
      = Except.error (PyError.valueError, ⟨[("a", "1")], [], [], []⟩) :=
  malformed_line_valueerror printStreamListnerMethods ⟨[("a", "1")], [], [], []⟩
    "garbage-no-colon" (by decide) (by decide) (by decide)

/-- C5: for every finite sequence of well-formed field lines followed by one
trailing blank line, the loop passes exactly one event to `_dispatch_event`,
and its field map is the in-order reduction of those lines: the first
occurrence of a key inserts its value, each later occurrence appends its
value to the stored one. -/
theorem wellformed_lines_single_event (m : List String) (fl : List String)
    (h : ∀ l ∈ fl, wfField l = true) :
    ((runLines m (fl ++ [""])).1).emitted = [reduceFields [] fl] := by
  unfold runLines
  rw [runFrom_fields m fl h initState [""]]
  simp only [runFrom, step]
  cases dispatch_event m (reduceFields initState.event fl) <;> simp [initState]

/-- C5 (witness): the claim at the two field lines of an update event. -/
theorem wellformed_lines_single_event_witness :
    ((runLines printStreamListnerMethods
        (["event: update", "data: x"] ++ [""])).1).emitted
      = [reduceFields [] ["event: update", "data: x"]] :=
  wellformed_lines_single_event printStreamListnerMethods
    ["event: update", "data: x"] (by decide)

/-- C6: for every field line whose key already exists in the accumulator,
processing the line appends the line's value to the stored value with no
separator inserted: the loop step succeeds, the accumulator is updated by
`updateField`, and the stored value for that key becomes the old value with
the new value appended. -/
theorem repeated_key_appends_value (m : List String) (s : RunState)
    (line : String) (kv : String × String) (old : String)
    (h0 : line ≠ "") (h1 : isHeartbeat line = false)
    (h2 : splitLine line = some kv)
    (h4 : getItem s.event kv.1 = some old) :
    step m s line = Except.ok { s with event := updateField s.event kv.1 kv.2 } ∧
    getItem (updateField s.event kv.1 kv.2) kv.1 = some (old ++ kv.2) :=
  ⟨step_field_eq m s line kv h0 h1 h2,
   getItem_updateField_same kv.1 kv.2 s.event old h4⟩

/-- C6 (witness): the lines `data: \x7b"a":1` then `data: \x7d` yield the
single field `data` holding the concatenation of the two values. -/
theorem repeated_key_appends_value_witness :
    getItem (updateField [("data", "\x7b\"a\":1")] "data" "\x7d") "data"
      = some ("\x7b\"a\":1" ++ "\x7d") :=
  (repeated_key_appends_value printStreamListnerMethods
    ⟨[("data", "\x7b\"a\":1")], [], [], []⟩ "data: \x7d" ("data", "\x7d")
    "\x7b\"a\":1" (by decide) (by decide) (by decide) (by decide)).2

/-- C7: for every non-empty line beginning with a colon (a heartbeat or
comment line such as `: thump`), the loop step only records the line for
the diagnostic sink: the accumulator, the dispatched events and the handler
calls are all exactly unchanged. -/
theorem heartbeat_line_no_effect (m : List String) (s : RunState)
    (line : String) (h0 : line ≠ "") (h1 : isHeartbeat line = true) :
    step m s line = Except.ok { s with heartbeats := s.heartbeats ++ [line] } :=
  step_heartbeat_eq m s line h0 h1

/-- C7 (witness): the heartbeat line `: thump` over a state holding a
half-built event leaves the accumulator, emissions and calls untouched. -/
theorem heartbeat_line_no_effect_witness :
    step printStreamListnerMethods ⟨[("event", "update")], [], [], []⟩ ": thump"
      = Except.ok ⟨[("event", "update")], [], [], [": thump"]⟩ :=
  heartbeat_line_no_effect printStreamListnerMethods
    ⟨[("event", "update")], [], [], []⟩ ": thump" (by decide) (by decide)

/-- C8: for every line sequence that ends without a terminating blank line,
the fields accumulated after the last blank line are discarded: appending
any blank-free suffix to a line sequence changes neither the list of events
passed to `_dispatch_event` nor the list of handler calls performed. -/
theorem partial_event_never_dispatched (m : List String)
    (pre suffix : List String) (h : ∀ l ∈ suffix, l ≠ "") :
    ((runLines m (pre ++ suffix)).1).emitted = ((runLines m pre).1).emitted ∧
    ((runLines m (pre ++ suffix)).1).calls = ((runLines m pre).1).calls := by
  unfold runLines
  rcases hp : runFrom m initState pre with ⟨s', oe⟩
  cases oe with
  | none =>
      rw [runFrom_append_ok m pre initState s' suffix hp]
      simpa using runFrom_no_blank m suffix h s'
  | some e =>
      rw [runFrom_append_err m pre initState s' e suffix hp]
      exact ⟨rfl, rfl⟩

/-- C8 (witness): after one complete update event, a trailing half-event
(`event: delete` with no blank line) is never dispatched: emissions and
calls equal those of the stream without the trailing fragment. -/
theorem partial_event_never_dispatched_witness :
    ((runLines printStreamListnerMethods
        (["event: update", "data: 1", ""] ++ ["event: delete", "data: 2"])).1).emitted
      = ((runLines printStreamListnerMethods
          ["event: update", "data: 1", ""]).1).emitted ∧
    ((runLines printStreamListnerMethods
        (["event: update", "data: 1", ""] ++ ["event: delete", "data: 2"])).1).calls
      = ((runLines printStreamListnerMethods
          ["event: update", "data: 1", ""]).1).calls :=
  partial_event_never_dispatched printStreamListnerMethods
    ["event: update", "data: 1", ""] ["event: delete", "data: 2"] (by decide)

/-- C9: for every event record holding the `event` key but lacking the
`data` key, dispatch raises KeyError "data" while building the method
caller, before any handler lookup on the listener: whatever methods the
listener supplies, no handler is called and the result is the KeyError,
never an AttributeError and never a handler call. -/
theorem missing_data_key_raises_before_lookup (m : List String)
    (event : List (String × String)) (ev : String)
    (h1 : getItem event "event" = some ev)
    (h2 : getItem event "data" = none) :
    dispatch_event m event = Except.error (PyError.keyError "data") :=
  dispatch_missing_data m event ev h1 h2

/-- C9 (witness): the record holding only `event: update`, against a
listener that does supply `on_update`, still raises KeyError "data". -/
theorem missing_data_key_raises_before_lookup_witness :
    dispatch_event printStreamListnerMethods [("event", "update")]
      = Except.error (PyError.keyError "data") :=
  missing_data_key_raises_before_lookup printStreamListnerMethods
    [("event", "update")] "update" (by decide) (by decide)

/-- C10: for every parameter dict built by `Mammut._build_parameters`, an
argument whose value is falsy in Python (`None`, `False`, `0` or the empty
string) is excluded from the result, whatever the ignore list: an
explicitly passed `False` or `0` is never transmitted to the server. -/
theorem build_parameters_excludes_falsy (params : List (String × PyVal))
    (ignores : Option (List String)) (k : String) (v : PyVal)
    (h : truthy v = false) :
    (k, v) ∉ build_parameters params ignores := by
  intro hmem
  simp only [build_parameters, List.mem_filter, Bool.and_eq_true] at hmem
  rw [h] at hmem
  exact Bool.false_ne_true hmem.2.2

/-- C10 (witness): the argument dicts of `get_account_statuses` with
`only_media=False` and of `home_timeline` with `limit=0` drop those
entries. -/
theorem build_parameters_excludes_falsy_witness :
    ("only_media", PyVal.pyBool false) ∉ build_parameters
        [("self", PyVal.pyStr "obj"), ("id_", PyVal.pyInt 5),
         ("only_media", PyVal.pyBool false),
         ("exclude_replies", PyVal.pyBool false)] Option.none ∧
    ("limit", PyVal.pyInt 0) ∉ build_parameters
        [("self", PyVal.pyStr "obj"), ("max_id", PyVal.pyNone),
         ("since_id", PyVal.pyNone), ("limit", PyVal.pyInt 0)] Option.none :=
  ⟨build_parameters_excludes_falsy _ _ "only_media" (PyVal.pyBool false) (by decide),
   build_parameters_excludes_falsy _ _ "limit" (PyVal.pyInt 0) (by decide)⟩
